import Mathlib

/-!
Verification development for the 3d-compiler repository.

Part 1 embeds the frontend JavaScript (renderer.js, the compile flow of the
app, and the state module) as pure Lean functions. JavaScript numbers are
modelled as rationals, undefined as Option.none, and the tagged single-key
IR value objects as explicit constructors. Truthiness of values follows the
JavaScript rules for the value shapes that occur.

Part 2 models the compiler front end from the specification (the compiler
core is not part of the shipped sources): the lexer of spec section 4.2 and
the mandatory top-level section order of the parser, spec section 4.3.
-/

/-- JVal models a JavaScript value as it appears in the IR JSON consumed by
the renderer: primitive values, bare arrays of numbers, and the single-key
tagged objects produced by the compiler. -/
inductive JVal
  | num (q : ℚ)
  | str (s : String)
  | boolVal (b : Bool)
  | arrVal (xs : List ℚ)
  | tagNumber (q : ℚ)
  | tagString (s : String)
  | tagVector3 (xs : List ℚ)
  | tagBoolean (b : Bool)
  | tagIdentifier (s : String)
  | tagArray (xs : List ℚ)
deriving DecidableEq

/-- Truthiness of a JVal under JavaScript rules: numbers are falsy at zero,
strings when empty, booleans when false; arrays and objects are always
truthy. -/
def jsTruthy : JVal → Bool
  | JVal.num q => decide (q ≠ 0)
  | JVal.str s => decide (s ≠ "")
  | JVal.boolVal b => b
  | _ => true

/-- Property lookup on a JavaScript object modelled as an association list;
absent keys give none, the JavaScript undefined. -/
def propsGet : List (String × JVal) → String → Option JVal
  | [], _ => none
  | (k, v) :: rest, key => if k = key then some v else propsGet rest key

/-- Embedding of ThreeRenderer.extractVector3 from renderer.js: null or a
falsy input gives null, a bare array is returned as is, then the Vector3
and Array single-key tags are unwrapped, anything else gives null. -/
def extractVector3 : Option JVal → Option (List ℚ)
  | none => none
  | some v =>
    if jsTruthy v = false then none
    else
      match v with
      | JVal.arrVal xs => some xs
      | JVal.tagVector3 xs => some xs
      | JVal.tagArray xs => some xs
      | _ => none

/-- Embedding of the primitive extraction in createEntityMesh:
the expression primitiveObj?.Identifier with two fallbacks through the
JavaScript or-operator, defaulting to the string cube. -/
def primitiveOf (po : Option JVal) : JVal :=
  match po with
  | none => JVal.str ("cube")
  | some (JVal.tagIdentifier s) =>
      if s = "" then JVal.tagIdentifier s else JVal.str s
  | some v => if jsTruthy v then v else JVal.str ("cube")

/-- Geometry selected by createEntityMesh; dimensions are Option rationals
because JavaScript indexing past the end of an array yields undefined. -/
inductive Geom
  | box (w h d : Option ℚ)
  | sphere (r : Option ℚ)
  | cylinder (rt rb h : Option ℚ)
  | cone (r h : Option ℚ)
  | plane (w h : Option ℚ)
deriving DecidableEq

/-- Embedding of the switch on the primitive in createEntityMesh. The
switch compares against string literals, so only a genuine JavaScript
string can select a non-default branch; everything else falls to the
default unit box. -/
def geomOf (primitive : JVal) (scale : List ℚ) : Geom :=
  if primitive = JVal.str ("cube") then
    Geom.box (scale.get? 0) (scale.get? 1) (scale.get? 2)
  else if primitive = JVal.str ("sphere") then
    Geom.sphere (scale.get? 0)
  else if primitive = JVal.str ("cylinder") then
    Geom.cylinder (scale.get? 0) (scale.get? 0) (scale.get? 1)
  else if primitive = JVal.str ("cone") then
    Geom.cone (scale.get? 0) (scale.get? 1)
  else if primitive = JVal.str ("plane") then
    Geom.plane (scale.get? 0) (scale.get? 1)
  else
    Geom.box (some 1) (some 1) (some 1)

/-- An IR component as the renderer reads it: an object that may carry a
properties object. -/
structure JComponent where
  properties : Option (List (String × JVal))
deriving DecidableEq

/-- The components object of an entity, as accessed by createEntityMesh
through the transform and geometry keys. -/
structure JComponents where
  transform : Option JComponent
  geometry : Option JComponent
deriving DecidableEq

/-- An IR entity as the renderer reads it. -/
structure JEntity where
  id : Option String
  components : Option JComponents
deriving DecidableEq

/-- The mesh data computed by createEntityMesh. -/
structure MeshSpec where
  name : String
  position : List ℚ
  rotation : List ℚ
  scale : List ℚ
  geom : Geom
deriving DecidableEq

/-- Embedding of ThreeRenderer.createEntityMesh from renderer.js: default
empty objects for missing components, transform, geometry and properties;
position, rotation, scale through extractVector3 with the or-defaults of
the source; geometry primitive through primitiveOf and the switch. -/
def createEntityMesh (name : String) (entity : JEntity) : MeshSpec :=
  let comps := entity.components.getD { transform := none, geometry := none }
  let transform := comps.transform.getD { properties := none }
  let geometry := comps.geometry.getD { properties := none }
  let tprops := transform.properties.getD []
  let position := (extractVector3 (propsGet tprops ("position"))).getD ([0, 0, 0] : List ℚ)
  let rotation := (extractVector3 (propsGet tprops ("rotation"))).getD ([0, 0, 0] : List ℚ)
  let scale := (extractVector3 (propsGet tprops ("scale"))).getD ([1, 1, 1] : List ℚ)
  let gprops := geometry.properties.getD []
  let primitive := primitiveOf (propsGet gprops ("primitive"))
  { name := name, position := position, rotation := rotation, scale := scale
  , geom := geomOf primitive scale }

/-- An IR motion as the renderer reads it. -/
structure JMotion where
  id : String
  motion_type : String
  target_entity : String
  parameters : Option (List (String × JVal))
deriving DecidableEq

/-- Optional-chained parameter lookup motion.parameters?.key. -/
def paramsGet (m : JMotion) (key : String) : Option JVal :=
  match m.parameters with
  | none => none
  | some ps => propsGet ps key

/-- Embedding of the axis computation in updateAnimations:
motion.parameters?.axis?.Vector3 with or-fallbacks to the raw parameter
value and then to the default axis. The left summand is a usable array of
numbers; the right summand keeps a non-array value as the raw JavaScript
value that the source would carry along. -/
def axisOf (m : JMotion) : Sum (List ℚ) JVal :=
  match paramsGet m ("axis") with
  | some (JVal.tagVector3 xs) => Sum.inl xs
  | some v =>
      if jsTruthy v then
        match v with
        | JVal.arrVal xs => Sum.inl xs
        | _ => Sum.inr v
      else Sum.inl ([0, 1, 0] : List ℚ)
  | none => Sum.inl ([0, 1, 0] : List ℚ)

/-- Embedding of the speed computation in updateAnimations:
motion.parameters?.speed?.Number with or-fallbacks to the raw parameter
value and then to zero. A Number-tagged zero falls through to the tagged
object itself because zero is falsy while the object is truthy. -/
def speedOf (m : JMotion) : Sum ℚ JVal :=
  match paramsGet m ("speed") with
  | some (JVal.tagNumber q) =>
      if q ≠ 0 then Sum.inl q else Sum.inr (JVal.tagNumber q)
  | some v =>
      if jsTruthy v then
        match v with
        | JVal.num q => Sum.inl q
        | _ => Sum.inr v
      else Sum.inl 0
  | none => Sum.inl 0

/-- A timeline event as received by loadMotions. IR events carry motion_id,
start_time and duration; the start field is the legacy fallback the source
also probes, absent from compiler output. -/
structure JsEvent where
  motion_id : Option String
  start_time : Option ℚ
  start : Option ℚ
  duration : Option ℚ
deriving DecidableEq

/-- An IR timeline as the renderer reads it. -/
structure JsTimeline where
  events : Option (List JsEvent)
deriving DecidableEq

/-- The internal timeline event record pushed by loadMotions. -/
structure TimelineEvt where
  start : ℚ
  duration : ℚ
  motion : JMotion
deriving DecidableEq

/-- Embedding of the motionMap built by loadMotions: a JavaScript object
indexed by motion id, where later assignments overwrite earlier ones, then
indexed by the possibly missing motion_id of an event. -/
def lookupMotion (motions : List JMotion) : Option String → Option JMotion
  | none => none
  | some k => motions.foldl (fun acc m => if m.id = k then some m else acc) none

/-- The JavaScript expression a-or-b on an optional number: a is used when
present and nonzero, otherwise b. -/
def jsOrNum (a : Option ℚ) (b : ℚ) : ℚ :=
  match a with
  | some q => if q ≠ 0 then q else b
  | none => b

/-- Embedding of the per-event body of loadMotions: resolve the motion
through the motionMap, drop the event when it resolves to null, otherwise
push a record with the or-defaulted start and duration. -/
def mkTimelineEvent (motions : List JMotion) (ev : JsEvent) : Option TimelineEvt :=
  match lookupMotion motions ev.motion_id with
  | none => none
  | some m =>
      some { start := jsOrNum ev.start_time (jsOrNum ev.start 0)
           , duration := jsOrNum ev.duration 0
           , motion := m }

/-- Embedding of ThreeRenderer.loadMotions from renderer.js: the nested
forEach over timelines and their events, with missing events lists
defaulting to the empty array. -/
def loadMotions (motions : List JMotion) (timelines : List JsTimeline) : List TimelineEvt :=
  timelines.flatMap (fun tl => (tl.events.getD []).filterMap (mkTimelineEvent motions))

/-- Embedding of the activity gate of updateAnimations: the source returns
early when t is strictly before start or strictly after start plus
duration, so an event is processed on the closed interval. -/
def eventActive (t s d : ℚ) : Bool :=
  !(decide (t < s) || decide (t > s + d))

/-- The rotation applied by updateAnimations to a found target object. -/
structure RotAction where
  targetName : String
  axis : Sum (List ℚ) JVal
  speed : Sum ℚ JVal
  delta : ℚ
deriving DecidableEq

/-- Embedding of the per-event body of updateAnimations: the time gate,
then the rotation motion-type check, then findObjectByName over the loaded
objects; only then is a rotation produced from axisOf and speedOf. -/
def processEvent (t delta : ℚ) (objects : List MeshSpec) (evt : TimelineEvt) : Option RotAction :=
  if eventActive t evt.start evt.duration = false then none
  else if evt.motion.motion_type = "rotation" then
    match objects.find? (fun o => o.name == evt.motion.target_entity) with
    | none => none
    | some o =>
        some { targetName := o.name, axis := axisOf evt.motion
             , speed := speedOf evt.motion, delta := delta }
  else none

/-- Embedding of ThreeRenderer.updateAnimations: the forEach over the
internal timeline events, collecting the applied rotations. -/
def updateAnimations (t delta : ℚ) (objects : List MeshSpec) (events : List TimelineEvt) : List RotAction :=
  events.filterMap (processEvent t delta objects)

/-- An IR scene as the frontend consumes it. -/
structure IrSceneJs where
  entities : List JEntity
  motions : List JMotion
  timelines : List JsTimeline
deriving DecidableEq

/-- The HTTP requests handleCompile can issue. -/
inductive Request
  | validateReq (src : String)
  | compileReq (src : String) (optimize : Bool)
deriving DecidableEq

/-- Body of the response of the validate endpoint. -/
structure ValidateResult where
  valid : Bool
  errors : List String
deriving DecidableEq

/-- Body of the response of the compile endpoint. -/
structure CompileResult where
  success : Bool
  ir_scene : Option IrSceneJs
  errors : Option (List String)
deriving DecidableEq

/-- The renderer state that loadScene replaces: the loaded scene, the
meshes created from its entities, and the internal timeline events. -/
structure RendererState where
  loadedScene : Option IrSceneJs
  objects : List MeshSpec
  events : List TimelineEvt
deriving DecidableEq

/-- Embedding of ThreeRenderer.loadScene on an IR scene: clearScene then
createEntityMesh per entity (with the unknown default name) and
loadMotions over the motions and timelines. -/
def loadSceneR (ir : IrSceneJs) : RendererState :=
  { loadedScene := some ir
  , objects := ir.entities.map (fun e => createEntityMesh (e.id.getD ("unknown")) e)
  , events := loadMotions ir.motions ir.timelines }

/-- Observable outcome of one run of handleCompile. -/
structure AppOutcome where
  requests : List Request
  statusLog : List (String × String)
  renderer : RendererState
  stateScene : Option IrSceneJs
deriving DecidableEq

/-- Embedding of the error message in the failure branch of handleCompile:
compileResult.errors?.join with the or-fallback to the Unknown error
string, which also fires when the join yields the empty string. -/
def errMsgOf (errors : Option (List String)) : String :=
  match errors with
  | none => "Unknown error"
  | some es =>
      let j := String.intercalate ("; ") es
      if j = "" then "Unknown error" else j

/-- The JavaScript string trim: drop whitespace from both ends. -/
def jsTrim (s : String) : String :=
  String.mk (((s.data.dropWhile Char.isWhitespace).reverse.dropWhile Char.isWhitespace).reverse)

/-- Embedding of App.handleCompile: trim the input, bail out on empty
input, otherwise post to the validate endpoint; on invalid report the
joined errors and stop; otherwise post to the compile endpoint and either
load and store the scene on success with a scene, or report the failure
message. The renderer state and app state are threaded explicitly. -/
def handleCompile (input : String) (r0 : RendererState) (s0 : Option IrSceneJs)
    (vres : ValidateResult) (cres : CompileResult) : AppOutcome :=
  let dslSource := jsTrim input
  if dslSource = "" then
    { requests := []
    , statusLog := [("Please enter DSL code", "error")]
    , renderer := r0, stateScene := s0 }
  else if vres.valid = false then
    { requests := [Request.validateReq dslSource]
    , statusLog := [("Compiling...", "loading"),
        ("Validation failed: " ++ String.intercalate ("; ") vres.errors, "error")]
    , renderer := r0, stateScene := s0 }
  else
    match cres.success, cres.ir_scene with
    | true, some ir =>
      { requests := [Request.validateReq dslSource, Request.compileReq dslSource true]
      , statusLog := [("Compiling...", "loading"),
          ("Scene loaded: " ++ toString ir.entities.length ++ " objects", "success")]
      , renderer := loadSceneR ir, stateScene := some ir }
    | _, _ =>
      { requests := [Request.validateReq dslSource, Request.compileReq dslSource true]
      , statusLog := [("Compiling...", "loading"),
          ("Compilation failed: " ++ errMsgOf cres.errors, "error")]
      , renderer := r0, stateScene := s0 }

/-- Modelled from the spec: the error codes of the diagnostics subsystem
that the lexer and the top-level parser of this model can emit (the
compiler core is not among the shipped sources; spec sections 4.1 to 4.3).
E001 unexpected character, E002 unterminated string, E100 unexpected
token, E101 missing required section. -/
inductive ECode
  | E001
  | E002
  | E100
  | E101
deriving DecidableEq

/-- Modelled from the spec: token kinds of spec section 3, with the
reserved words of the grammar as dedicated keyword kinds and the lexeme
kept for identifiers, numbers and strings. -/
inductive TokKind
  | kwScene
  | kwEntity
  | kwComponents
  | kwConstraint
  | kwMotion
  | kwTimeline
  | kwEvent
  | kwLibraryImports
  | kwKind
  | ident (s : String)
  | intLit (s : String)
  | numLit (s : String)
  | strLit (s : String)
  | colon
  | comma
  | lbrace
  | rbrace
  | lbracket
  | rbracket
  | eofTok
deriving DecidableEq

/-- Reserved-word table of the lexer. -/
def keywordOf (s : String) : Option TokKind :=
  if s = "scene" then some TokKind.kwScene
  else if s = "entity" then some TokKind.kwEntity
  else if s = "components" then some TokKind.kwComponents
  else if s = "constraint" then some TokKind.kwConstraint
  else if s = "motion" then some TokKind.kwMotion
  else if s = "timeline" then some TokKind.kwTimeline
  else if s = "event" then some TokKind.kwEvent
  else if s = "library_imports" then some TokKind.kwLibraryImports
  else if s = "kind" then some TokKind.kwKind
  else none

/-- ASCII whitespace skipped by the lexer. -/
def isWsChar (c : Char) : Bool :=
  c == ' ' || c == '\t' || c == '\n' || c == '\r'

/-- First character of an identifier per the lexer rules. -/
def isIdentStartChar (c : Char) : Bool :=
  c.isAlpha || c == '_'

/-- Continuation character of an identifier per the lexer rules. -/
def isIdentChar (c : Char) : Bool :=
  c.isAlphanum || c == '_'

/-- Split a character list into its leading digits and the rest. -/
def takeDigits (cs : List Char) : List Char × List Char :=
  (cs.takeWhile Char.isDigit, cs.dropWhile Char.isDigit)

/-- Optional fractional part of a number: a dot is consumed only together
with at least one following digit. -/
def scanFrac (cs : List Char) : List Char × List Char :=
  match cs with
  | '.' :: r =>
    let (fs, rr) := takeDigits r
    if fs.isEmpty then ([], cs) else ('.' :: fs, rr)
  | _ => ([], cs)

/-- Optional exponent part of a number: an e or E with optional sign is
consumed only together with at least one digit. -/
def scanExp (cs : List Char) : List Char × List Char :=
  match cs with
  | e :: r =>
    if e == 'e' || e == 'E' then
      match r with
      | sg :: r2 =>
        if sg == '+' || sg == '-' then
          let (es, rr) := takeDigits r2
          if es.isEmpty then ([], cs) else (e :: sg :: es, rr)
        else
          let (es, rr) := takeDigits r
          if es.isEmpty then ([], cs) else (e :: es, rr)
      | [] => ([], cs)
    else ([], cs)
  | [] => ([], cs)

/-- Scan a number starting at a digit: leading digits, optional fraction,
optional exponent. Returns whether the lexeme is an integer, the lexeme
characters, and the remaining input. -/
def scanNumber (cs : List Char) : Bool × List Char × List Char :=
  let (ds, r1) := takeDigits cs
  let (fr, r2) := scanFrac r1
  let (ex, r3) := scanExp r2
  (fr.isEmpty && ex.isEmpty, ds ++ fr ++ ex, r3)

/-- Prepend a token to the result of lexing the rest of the input. -/
def consTok (t : TokKind) (r : Except ECode (List TokKind)) : Except ECode (List TokKind) :=
  match r with
  | Except.error e => Except.error e
  | Except.ok ts => Except.ok (t :: ts)

/-- Modelled from the spec: the lexer of spec section 4.2 over a character
list, fuelled by the input length (every step consumes at least one
character, so fuel one beyond the input length never runs out). Skips
whitespace and line comments, recognizes identifiers and reserved words,
numbers with optional sign, strings without escapes, and the six
single-character tokens; fails fast with E001 or E002. -/
def lexChars : Nat → List Char → Except ECode (List TokKind)
  | 0, _ => Except.error ECode.E001
  | _ + 1, [] => Except.ok [TokKind.eofTok]
  | fuel + 1, c :: rest =>
    if isWsChar c then lexChars fuel rest
    else if c == '/' then
      match rest with
      | '/' :: r2 => lexChars fuel (r2.dropWhile (fun ch => ch != '\n'))
      | _ => Except.error ECode.E001
    else if isIdentStartChar c then
      let lexChs := c :: rest.takeWhile isIdentChar
      let r2 := rest.dropWhile isIdentChar
      let lexeme := String.mk lexChs
      let tok := match keywordOf lexeme with
                 | some k => k
                 | none => TokKind.ident lexeme
      consTok tok (lexChars fuel r2)
    else if c.isDigit then
      let (isInt, lexChs, r2) := scanNumber (c :: rest)
      let tok := if isInt then TokKind.intLit (String.mk lexChs)
                 else TokKind.numLit (String.mk lexChs)
      consTok tok (lexChars fuel r2)
    else if c == '-' then
      match rest with
      | d :: _ =>
        if d.isDigit then
          let (isInt, lexChs, r2) := scanNumber rest
          let tok := if isInt then TokKind.intLit (String.mk ('-' :: lexChs))
                     else TokKind.numLit (String.mk ('-' :: lexChs))
          consTok tok (lexChars fuel r2)
        else Except.error ECode.E001
      | [] => Except.error ECode.E001
    else if c == '"' then
      let content := rest.takeWhile (fun ch => ch != '"')
      match rest.dropWhile (fun ch => ch != '"') with
      | [] => Except.error ECode.E002
      | _ :: r2 => consTok (TokKind.strLit (String.mk content)) (lexChars fuel r2)
    else if c == '{' then consTok TokKind.lbrace (lexChars fuel rest)
    else if c == '}' then consTok TokKind.rbrace (lexChars fuel rest)
    else if c == '[' then consTok TokKind.lbracket (lexChars fuel rest)
    else if c == ']' then consTok TokKind.rbracket (lexChars fuel rest)
    else if c == ':' then consTok TokKind.colon (lexChars fuel rest)
    else if c == ',' then consTok TokKind.comma (lexChars fuel rest)
    else Except.error ECode.E001

/-- Lex a source string into a token stream terminated by eof. -/
def lexSource (s : String) : Except ECode (List TokKind) :=
  lexChars (s.length + 1) s.data

/-- The six top-level section kinds of the grammar. -/
inductive SecKw
  | scene
  | libraryImports
  | entity
  | constraint
  | motion
  | timeline
deriving DecidableEq

/-- The section kind introduced by a token, when it can open a top-level
block. -/
def secKwOf : TokKind → Option SecKw
  | TokKind.kwScene => some SecKw.scene
  | TokKind.kwLibraryImports => some SecKw.libraryImports
  | TokKind.kwEntity => some SecKw.entity
  | TokKind.kwConstraint => some SecKw.constraint
  | TokKind.kwMotion => some SecKw.motion
  | TokKind.kwTimeline => some SecKw.timeline
  | _ => none

/-- Skip the body of a block whose opening brace has been consumed, up to
and beyond the matching closing brace; none when the braces never close. -/
def skipBody : List TokKind → Nat → Option (List TokKind)
  | [], _ => none
  | t :: ts, d =>
    match t with
    | TokKind.lbrace => skipBody ts (d + 1)
    | TokKind.rbrace => if d = 0 then some ts else skipBody ts (d - 1)
    | TokKind.eofTok => none
    | _ => skipBody ts d

/-- Modelled from the spec: the top-level structure pass of the parser of
spec section 4.3, fuelled by the token count. Each section is a section
keyword, an optional name identifier, and a braced body whose fields are
skipped (body-level checks are outside this model); the stream must end at
the eof token. E100 on any other top-level shape. -/
def parseSectionsF : Nat → List TokKind → Except ECode (List SecKw)
  | 0, _ => Except.error ECode.E100
  | _ + 1, [] => Except.error ECode.E100
  | _ + 1, TokKind.eofTok :: _ => Except.ok []
  | fuel + 1, t :: ts =>
    match secKwOf t with
    | none => Except.error ECode.E100
    | some k =>
      let ts1 := match ts with
                 | TokKind.ident _ :: r => r
                 | _ => ts
      match ts1 with
      | TokKind.lbrace :: body =>
        match skipBody body 0 with
        | none => Except.error ECode.E100
        | some rest =>
          match parseSectionsF fuel rest with
          | Except.error e => Except.error e
          | Except.ok ks => Except.ok (k :: ks)
      | _ => Except.error ECode.E100

/-- Top-level section keyword sequence of a token stream. -/
def parseSections (toks : List TokKind) : Except ECode (List SecKw) :=
  parseSectionsF (toks.length + 1) toks

/-- Length of the leading run of the section kind k, together with the
list that remains after it. -/
def countRun (k : SecKw) : List SecKw → Nat × List SecKw
  | [] => (0, [])
  | x :: xs =>
    if x = k then ((countRun k xs).1 + 1, (countRun k xs).2)
    else (0, x :: xs)

/-- Modelled from the spec: the mandatory section order
scene library_imports entity* constraint* motion* timeline* of spec
section 4.3. A stream not opening with scene then library_imports is E101
missing required section; a later section out of order is E100. -/
def orderCheck (ks : List SecKw) : Except ECode Unit :=
  match ks with
  | SecKw.scene :: SecKw.libraryImports :: rest =>
    let r1 := (countRun SecKw.entity rest).2
    let r2 := (countRun SecKw.constraint r1).2
    let r3 := (countRun SecKw.motion r2).2
    let r4 := (countRun SecKw.timeline r3).2
    if r4 = [] then Except.ok () else Except.error ECode.E100
  | SecKw.scene :: _ => Except.error ECode.E101
  | _ => Except.error ECode.E101

/-- Section keyword sequence of a source string. -/
def sectionsOf (s : String) : Except ECode (List SecKw) :=
  match lexSource s with
  | Except.error e => Except.error e
  | Except.ok toks => parseSections toks

/-- Modelled from the spec: acceptance by the compiler front end. A source
is accepted when it lexes, its top level parses into sections, and the
sections satisfy the mandatory order; the accepted sections are returned,
an error yields no result at all. -/
def compileModel (s : String) : Except ECode (List SecKw) :=
  match sectionsOf s with
  | Except.error e => Except.error e
  | Except.ok ks =>
    match orderCheck ks with
    | Except.error e => Except.error e
    | Except.ok _ => Except.ok ks

/-- Collect the field names written at the top level of a block body:
identifier-colon pairs at brace depth zero, stopping at the closing brace
of the block. -/
def fieldNames0 : List TokKind → Nat → List String
  | [], _ => []
  | TokKind.rbrace :: _, 0 => []
  | TokKind.rbrace :: ts, d + 1 => fieldNames0 ts d
  | TokKind.lbrace :: ts, d => fieldNames0 ts (d + 1)
  | TokKind.ident s :: TokKind.colon :: ts, 0 => s :: fieldNames0 ts 0
  | _ :: ts, d => fieldNames0 ts d

/-- Find the first motion block (the motion keyword with a name and an
opening brace) and return its top-level field names. -/
def findMotionFields : List TokKind → Option (List String)
  | [] => none
  | TokKind.kwMotion :: TokKind.ident _ :: TokKind.lbrace :: body =>
      some (fieldNames0 body 0)
  | _ :: ts => findMotionFields ts

/-- Top-level field names of the first motion block of a source text. -/
def motionFieldNames (s : String) : Option (List String) :=
  match lexSource s with
  | Except.error _ => none
  | Except.ok toks => findMotionFields toks

/-- The SAMPLE_DSL fixture shipped in sample-dsl.js: a scene block followed
directly by entities, with no library_imports block. -/
def SAMPLE_DSL : String :=
  "scene \x7b\n  name: \"Simple Visualization\"\n  version: 1\n  ir_version: \"0.1.0\"\n  unit_system: \"SI\"\n\x7d\n\nentity cube1 \x7b\n  kind: solid\n  components \x7b\n    transform \x7b\n      position: [0, 0, 0]\n      rotation: [0, 0, 0]\n      scale: [2, 2, 2]\n    \x7d\n    geometry \x7b\n      primitive: cube\n    \x7d\n  \x7d\n\x7d\n\nentity sphere1 \x7b\n  kind: solid\n  components \x7b\n    transform \x7b\n      position: [4, 0, 0]\n      rotation: [0, 0, 0]\n      scale: [1.5, 1.5, 1.5]\n    \x7d\n    geometry \x7b\n      primitive: sphere\n    \x7d\n  \x7d\n\x7d\n\nentity cylinder1 \x7b\n  kind: solid\n  components \x7b\n    transform \x7b\n      position: [-3, 0, 0]\n      rotation: [0, 0, 0]\n      scale: [1, 2, 1]\n    \x7d\n    geometry \x7b\n      primitive: cylinder\n    \x7d\n  \x7d\n\x7d"

/-- The SAMPLE_DSL_SIMPLE fixture shipped in sample-dsl.js: a bare entity
block with neither a scene nor a library_imports block. -/
def SAMPLE_DSL_SIMPLE : String :=
  "entity box \x7b\n  kind: solid\n  components \x7b\n    transform \x7b\n      position: [0, 0, 0]\n      rotation: [0, 0, 0]\n      scale: [1, 1, 1]\n    \x7d\n    geometry \x7b\n      primitive: cube\n    \x7d\n  \x7d\n\x7d"

/-- The shipped scene.dsl sample source. -/
def sceneDslText : String :=
  "scene \x7b\nname: \"Cube Demo\"\nversion: 1\nir_version: \"0.1.0\"\nunit_system: \"SI\"\n\x7d\nlibrary_imports \x7b\nmath: \"core_mechanics\"\ngeometry: \"basic_solids\"\n\x7d\nentity cube \x7b\nkind: solid\ncomponents \x7b\ntransform \x7b\nposition: [0, 0, 0]\nrotation: [0, 0, 0]\nscale: [1, 1, 1]\n\x7d\ngeometry \x7b\nprimitive: cube\n\x7d\nphysical \x7b\nmass: 1.0\nrigid: true\n\x7d\n\x7d\n\x7d\nmotion rotate_cube \x7b\ntarget: cube\ntype: rotation\naxis: [0, 1, 0]\nspeed: 1.5708\n\x7d\ntimeline main \x7b\nevent \x7b\nmotion: rotate_cube\nstart: 0.0\nduration: 10.0\n\x7d\n\x7d\n"

theorem countRun_spec (k : SecKw) (l : List SecKw) :
    l = List.replicate (countRun k l).1 k ++ (countRun k l).2 := by
  induction l with
  | nil => simp [countRun]
  | cons x xs ih =>
    by_cases h : x = k
    · subst h
      simp only [countRun, if_true, List.replicate_succ, List.cons_append, List.cons.injEq,
        true_and]
      exact ih
    · simp [countRun, h]

theorem orderCheck_shape (ks : List SecKw) (h : orderCheck ks = Except.ok ()) :
    ∃ a b c d, ks = SecKw.scene :: SecKw.libraryImports ::
      (List.replicate a SecKw.entity ++ (List.replicate b SecKw.constraint ++
       (List.replicate c SecKw.motion ++ List.replicate d SecKw.timeline))) := by
  rcases ks with _ | ⟨k1, ks1⟩
  · simp [orderCheck] at h
  rcases ks1 with _ | ⟨k2, rest⟩
  · cases k1 <;> simp [orderCheck] at h
  cases k1
  case scene =>
    cases k2
    case libraryImports =>
      simp only [orderCheck] at h
      split at h
      case isTrue h4 =>
        refine ⟨(countRun SecKw.entity rest).1,
          (countRun SecKw.constraint (countRun SecKw.entity rest).2).1,
          (countRun SecKw.motion (countRun SecKw.constraint (countRun SecKw.entity rest).2).2).1,
          (countRun SecKw.timeline (countRun SecKw.motion
            (countRun SecKw.constraint (countRun SecKw.entity rest).2).2).2).1, ?_⟩
        have e1 := countRun_spec SecKw.entity rest
        have e2 := countRun_spec SecKw.constraint (countRun SecKw.entity rest).2
        have e3 := countRun_spec SecKw.motion
          (countRun SecKw.constraint (countRun SecKw.entity rest).2).2
        have e4 := countRun_spec SecKw.timeline (countRun SecKw.motion
          (countRun SecKw.constraint (countRun SecKw.entity rest).2).2).2
        rw [h4, List.append_nil] at e4
        simp only [List.cons.injEq, true_and]
        conv_lhs => rw [e1]
        conv_lhs => rw [e2]
        conv_lhs => rw [e3]
        conv_lhs => rw [e4]
      case isFalse => exact absurd h (by simp)
    all_goals simp [orderCheck] at h
  all_goals simp [orderCheck] at h

theorem orderCheck_err (ks : List SecKw) (e : ECode) (h : orderCheck ks = Except.error e) :
    e = ECode.E100 ∨ e = ECode.E101 := by
  rcases ks with _ | ⟨k1, ks1⟩
  · right
    simp [orderCheck] at h
    first
    | exact h
    | exact h.symm
  rcases ks1 with _ | ⟨k2, rest⟩
  · cases k1 <;> (right; simp [orderCheck] at h; first | exact h | exact h.symm)
  cases k1
  case scene =>
    cases k2
    case libraryImports =>
      simp only [orderCheck] at h
      split at h
      case isTrue => exact absurd h (by simp)
      case isFalse =>
        left
        cases h
        rfl
    all_goals (right; simp [orderCheck] at h; first | exact h | exact h.symm)
  all_goals (right; simp [orderCheck] at h; first | exact h | exact h.symm)

theorem compileModel_eq_err (s : String) (e : ECode) (h : sectionsOf s = Except.error e) :
    compileModel s = Except.error e := by
  unfold compileModel
  rw [h]

theorem compileModel_eq_ok (s : String) (ks : List SecKw) (h : sectionsOf s = Except.ok ks) :
    compileModel s = (match orderCheck ks with
      | Except.error e => Except.error e
      | Except.ok _ => Except.ok ks) := by
  unfold compileModel
  rw [h]

set_option maxRecDepth 200000 in
/-- C1: every source accepted by the (spec-modelled) compiler front end
decomposes as a scene section, then a library_imports section, then
entities, constraints, motions and timelines in that order; a source whose
section sequence lacks scene or library_imports is rejected with E100 or
E101 and yields no result; in particular the shipped fixtures SAMPLE_DSL
and SAMPLE_DSL_SIMPLE are rejected with E101. -/
theorem claim_C1 :
    (∀ s ks, compileModel s = Except.ok ks →
       ∃ a b c d, ks = SecKw.scene :: SecKw.libraryImports ::
         (List.replicate a SecKw.entity ++ (List.replicate b SecKw.constraint ++
          (List.replicate c SecKw.motion ++ List.replicate d SecKw.timeline))))
    ∧ (∀ s ks, sectionsOf s = Except.ok ks →
         (SecKw.scene ∉ ks ∨ SecKw.libraryImports ∉ ks) →
         compileModel s = Except.error ECode.E100 ∨ compileModel s = Except.error ECode.E101)
    ∧ compileModel SAMPLE_DSL = Except.error ECode.E101
    ∧ compileModel SAMPLE_DSL_SIMPLE = Except.error ECode.E101 := by
  refine ⟨?_, ?_, by rfl, by rfl⟩
  · intro s ks h
    rcases hs : sectionsOf s with e | ks0
    · rw [compileModel_eq_err s e hs] at h
      exact absurd h (by simp)
    · rw [compileModel_eq_ok s ks0 hs] at h
      rcases ho : orderCheck ks0 with e | u
      · rw [ho] at h
        exact absurd h (by simp)
      · rw [ho] at h
        simp only [Except.ok.injEq] at h
        subst h
        cases u
        exact orderCheck_shape ks0 ho
  · intro s ks h hmem
    rw [compileModel_eq_ok s ks h]
    rcases ho : orderCheck ks with e | u
    · rcases orderCheck_err ks e ho with he | he
      · subst he
        left
        rfl
      · subst he
        right
        rfl
    · exfalso
      cases u
      obtain ⟨a, b, c, d, hks⟩ := orderCheck_shape ks ho
      subst hks
      rcases hmem with hm | hm <;> simp at hm

set_option maxRecDepth 200000 in
/-- Witness for C1 at concrete inputs: the shipped scene.dsl source is
accepted and its section sequence decomposes as required, and SAMPLE_DSL
parses into sections lacking library_imports, so it is rejected with E100
or E101. -/
theorem claim_C1_witness :
    (∃ a b c d, ([SecKw.scene, SecKw.libraryImports, SecKw.entity, SecKw.motion,
        SecKw.timeline] : List SecKw) = SecKw.scene :: SecKw.libraryImports ::
         (List.replicate a SecKw.entity ++ (List.replicate b SecKw.constraint ++
          (List.replicate c SecKw.motion ++ List.replicate d SecKw.timeline))))
    ∧ (compileModel SAMPLE_DSL = Except.error ECode.E100 ∨
       compileModel SAMPLE_DSL = Except.error ECode.E101) := by
  constructor
  · exact claim_C1.1 sceneDslText
      [SecKw.scene, SecKw.libraryImports, SecKw.entity, SecKw.motion, SecKw.timeline] (by rfl)
  · exact claim_C1.2.1 SAMPLE_DSL
      [SecKw.scene, SecKw.entity, SecKw.entity, SecKw.entity] (by rfl) (Or.inr (by decide))

/-- C7: the modelled compile pipeline is a pure function of the source
text, so two runs on the same source yield identical results (the library
and schema registries of the full pipeline are fixed process-wide values,
not inputs that vary between runs). -/
theorem claim_C7 (s t : String) (h : s = t) : compileModel s = compileModel t := by
  rw [h]

/-- Witness for C7 at a concrete input. -/
theorem claim_C7_witness :
    compileModel ("scene") = compileModel ("scene") :=
  claim_C7 ("scene") ("scene") rfl

/-- An empty renderer state, as after construction. -/
def emptyRenderer : RendererState := { loadedScene := none, objects := [], events := [] }

/-- A validate response that passes validation. -/
def vresOkSample : ValidateResult := { valid := true, errors := [] }

/-- C2: when the validate response says invalid, handleCompile issues only
the validate request, reports the joined errors, and leaves the renderer
state and the stored scene unchanged. -/
theorem claim_C2 (input : String) (r0 : RendererState) (s0 : Option IrSceneJs)
    (vres : ValidateResult) (cres : CompileResult)
    (h1 : jsTrim input ≠ "") (h2 : vres.valid = false) :
    (handleCompile input r0 s0 vres cres).requests = [Request.validateReq (jsTrim input)]
    ∧ (handleCompile input r0 s0 vres cres).statusLog =
        [("Compiling...", "loading"),
         ("Validation failed: " ++ String.intercalate ("; ") vres.errors, "error")]
    ∧ (handleCompile input r0 s0 vres cres).renderer = r0
    ∧ (handleCompile input r0 s0 vres cres).stateScene = s0 := by
  unfold handleCompile
  simp [h1, h2]

/-- Witness for C2 at a concrete invalid response. -/
theorem claim_C2_witness :
    (handleCompile ("x") emptyRenderer none { valid := false, errors := [("boom")] }
        { success := false, ir_scene := none, errors := none }).requests =
      [Request.validateReq (jsTrim ("x"))]
    ∧ (handleCompile ("x") emptyRenderer none { valid := false, errors := [("boom")] }
        { success := false, ir_scene := none, errors := none }).statusLog =
        [("Compiling...", "loading"),
         ("Validation failed: " ++ String.intercalate ("; ") [("boom")], "error")]
    ∧ (handleCompile ("x") emptyRenderer none { valid := false, errors := [("boom")] }
        { success := false, ir_scene := none, errors := none }).renderer = emptyRenderer
    ∧ (handleCompile ("x") emptyRenderer none { valid := false, errors := [("boom")] }
        { success := false, ir_scene := none, errors := none }).stateScene = none :=
  claim_C2 ("x") emptyRenderer none { valid := false, errors := [("boom")] }
    { success := false, ir_scene := none, errors := none } (by decide) rfl

/-- A compile response that failed with an empty errors list. -/
def cresEmptyErrs : CompileResult := { success := false, ir_scene := none, errors := some [] }

/-- Counterexample for C3 as stated: on a failed compile whose errors
field is present but empty, the reported message is the Unknown error
fallback, not the joined errors (which join to the empty string). -/
theorem claim_C3_counterexample :
    (handleCompile ("x") emptyRenderer none vresOkSample cresEmptyErrs).statusLog =
      [("Compiling...", "loading"), ("Compilation failed: Unknown error", "error")]
    ∧ ("Compilation failed: Unknown error" : String) ≠
        "Compilation failed: " ++ String.intercalate ("; ") ([] : List String) := by
  constructor
  · rfl
  · decide

/-- C3 amended: once handleCompile reaches the compile request, the scene
is loaded into the renderer and stored in the app state exactly when the
response has success true and a non-null ir_scene; otherwise the renderer
and stored scene are unchanged and the reported message is the joined
errors, with the Unknown error fallback when the errors field is absent or
the join is empty. -/
theorem claim_C3 (input : String) (r0 : RendererState) (s0 : Option IrSceneJs)
    (vres : ValidateResult) (cres : CompileResult)
    (h1 : jsTrim input ≠ "") (h2 : vres.valid = true) :
    (handleCompile input r0 s0 vres cres).requests =
      [Request.validateReq (jsTrim input), Request.compileReq (jsTrim input) true]
    ∧ (∀ ir, cres.success = true → cres.ir_scene = some ir →
        (handleCompile input r0 s0 vres cres).renderer = loadSceneR ir
        ∧ (handleCompile input r0 s0 vres cres).renderer.loadedScene = some ir
        ∧ (handleCompile input r0 s0 vres cres).stateScene = some ir)
    ∧ (¬(cres.success = true ∧ cres.ir_scene.isSome) →
        (handleCompile input r0 s0 vres cres).renderer = r0
        ∧ (handleCompile input r0 s0 vres cres).stateScene = s0
        ∧ (handleCompile input r0 s0 vres cres).statusLog =
            [("Compiling...", "loading"),
             ("Compilation failed: " ++ errMsgOf cres.errors, "error")]) := by
  obtain ⟨succ, irs, errs⟩ := cres
  unfold handleCompile
  cases succ <;> rcases irs with _ | ir <;> simp [h1, h2, loadSceneR]

/-- The empty IR scene. -/
def sampleScene : IrSceneJs := { entities := [], motions := [], timelines := [] }

/-- Witness for C3 at a concrete successful compile response. -/
theorem claim_C3_witness :
    (handleCompile ("x") emptyRenderer none vresOkSample
        { success := true, ir_scene := some sampleScene, errors := none }).renderer =
      loadSceneR sampleScene
    ∧ (handleCompile ("x") emptyRenderer none vresOkSample
        { success := true, ir_scene := some sampleScene, errors := none }).renderer.loadedScene =
      some sampleScene
    ∧ (handleCompile ("x") emptyRenderer none vresOkSample
        { success := true, ir_scene := some sampleScene, errors := none }).stateScene =
      some sampleScene :=
  (claim_C3 ("x") emptyRenderer none vresOkSample
    { success := true, ir_scene := some sampleScene, errors := none }
    (by decide) rfl).2.1 sampleScene rfl rfl

theorem lookupFold_mem (key : String) (motions : List JMotion) (acc : Option JMotion)
    (m : JMotion)
    (h : motions.foldl (fun acc x => if x.id = key then some x else acc) acc = some m) :
    m ∈ motions ∨ acc = some m := by
  induction motions generalizing acc with
  | nil => right; simpa using h
  | cons x xs ih =>
    rw [List.foldl_cons] at h
    rcases ih _ h with hm | hacc
    · left
      exact List.mem_cons_of_mem _ hm
    · by_cases hx : x.id = key
      · rw [if_pos hx] at hacc
        left
        simp only [Option.some.injEq] at hacc
        rw [← hacc]
        exact List.mem_cons_self x xs
      · rw [if_neg hx] at hacc
        right
        exact hacc

theorem lookupFold_skip (key : String) (xs : List JMotion)
    (h : ∀ y ∈ xs, y.id ≠ key) (acc : Option JMotion) :
    xs.foldl (fun acc x => if x.id = key then some x else acc) acc = acc := by
  induction xs generalizing acc with
  | nil => rfl
  | cons x t ih =>
    rw [List.foldl_cons, if_neg (h x (List.mem_cons_self x t))]
    exact ih (fun y hy => h y (List.mem_cons_of_mem _ hy)) acc

theorem lookupFold_unique (key : String) (motions : List JMotion) (m : JMotion)
    (hmem : m ∈ motions) (hid : m.id = key)
    (hnd : (motions.map JMotion.id).Nodup) (acc : Option JMotion) :
    motions.foldl (fun acc x => if x.id = key then some x else acc) acc = some m := by
  induction motions generalizing acc with
  | nil => cases hmem
  | cons x xs ih =>
    rw [List.foldl_cons]
    simp only [List.map_cons, List.nodup_cons] at hnd
    rcases List.mem_cons.mp hmem with rfl | hmem2
    · rw [if_pos hid]
      apply lookupFold_skip
      intro y hy hyk
      exact hnd.1 (by rw [hid, ← hyk]; exact List.mem_map_of_mem _ hy)
    · exact ih hmem2 hnd.2 _

theorem lookupMotion_mem (motions : List JMotion) (k : Option String) (m : JMotion)
    (h : lookupMotion motions k = some m) : m ∈ motions := by
  rcases k with _ | key
  · simp [lookupMotion] at h
  · unfold lookupMotion at h
    rcases lookupFold_mem key motions none m h with hm | hacc
    · exact hm
    · exact absurd hacc (by simp)

/-- C4: for an IR-shaped timeline event with a present motion_id that is
the id of a motion in the list (ids pairwise distinct), a nonnegative
start_time, a positive duration and no legacy start field, loadMotions
produces exactly one internal event carrying that start_time, duration and
motion. -/
theorem claim_C4 (motions : List JMotion) (ev : JsEvent) (m : JMotion) (mid : String)
    (s d : ℚ)
    (hnd : (motions.map JMotion.id).Nodup) (hm : m ∈ motions) (hid : m.id = mid)
    (h1 : ev.motion_id = some mid) (h2 : ev.start_time = some s) (h3 : 0 ≤ s)
    (h4 : ev.start = none) (h5 : ev.duration = some d) (h6 : 0 < d) :
    mkTimelineEvent motions ev = some { start := s, duration := d, motion := m }
    ∧ loadMotions motions [{ events := some [ev] }] =
        [{ start := s, duration := d, motion := m }] := by
  have hlook : lookupMotion motions ev.motion_id = some m := by
    rw [h1]
    unfold lookupMotion
    exact lookupFold_unique mid motions m hm hid hnd none
  have hstart : jsOrNum ev.start_time (jsOrNum ev.start 0) = s := by
    rw [h2, h4]
    by_cases hs0 : s = 0
    · subst hs0
      simp [jsOrNum]
    · simp [jsOrNum, hs0]
  have hdur : jsOrNum ev.duration 0 = d := by
    rw [h5]
    have hd0 : d ≠ 0 := ne_of_gt h6
    simp [jsOrNum, hd0]
  have hmk : mkTimelineEvent motions ev = some { start := s, duration := d, motion := m } := by
    unfold mkTimelineEvent
    rw [hlook, hstart, hdur]
  exact ⟨hmk, by simp [loadMotions, hmk]⟩

/-- A concrete rotation motion. -/
def sampleMotion : JMotion :=
  { id := "spin", motion_type := "rotation", target_entity := "cube", parameters := none }

/-- A concrete IR-shaped timeline event referring to sampleMotion. -/
def sampleEvent : JsEvent :=
  { motion_id := some ("spin"), start_time := some 0, start := none, duration := some 10 }

/-- Witness for C4 at a concrete motion list and event. -/
theorem claim_C4_witness :
    mkTimelineEvent [sampleMotion] sampleEvent =
      some { start := 0, duration := 10, motion := sampleMotion }
    ∧ loadMotions [sampleMotion] [{ events := some [sampleEvent] }] =
        [{ start := 0, duration := 10, motion := sampleMotion }] :=
  claim_C4 [sampleMotion] sampleEvent sampleMotion ("spin") 0 10 (by decide) (by decide)
    rfl rfl rfl (by decide) rfl rfl (by decide)

/-- C8: every internal timeline event produced by loadMotions carries a
motion drawn from the supplied motions list, and an event whose motion_id
matches no motion id is silently discarded: its processing yields none and
it contributes no entry. -/
theorem claim_C8 (motions : List JMotion) (timelines : List JsTimeline) :
    (∀ e ∈ loadMotions motions timelines, e.motion ∈ motions)
    ∧ (∀ ev : JsEvent, (∀ m ∈ motions, some m.id ≠ ev.motion_id) →
        mkTimelineEvent motions ev = none
        ∧ loadMotions motions [{ events := some [ev] }] = []) := by
  constructor
  · intro e he
    unfold loadMotions at he
    obtain ⟨tl, htl, hev⟩ := List.mem_flatMap.mp he
    obtain ⟨ev, hevmem, hmk⟩ := List.mem_filterMap.mp hev
    unfold mkTimelineEvent at hmk
    rcases hl : lookupMotion motions ev.motion_id with _ | m
    · rw [hl] at hmk
      exact absurd hmk (by simp)
    · rw [hl] at hmk
      simp only [Option.some.injEq] at hmk
      have hmem := lookupMotion_mem motions ev.motion_id m hl
      rw [← hmk]
      exact hmem
  · intro ev hnone
    have hl : lookupMotion motions ev.motion_id = none := by
      rcases hmid : ev.motion_id with _ | k
      · simp [lookupMotion]
      · unfold lookupMotion
        apply lookupFold_skip
        intro y hy hyk
        exact hnone y hy (by rw [hyk, hmid])
    have hmk : mkTimelineEvent motions ev = none := by
      unfold mkTimelineEvent
      rw [hl]
    exact ⟨hmk, by simp [loadMotions, hmk]⟩

/-- A concrete event whose motion_id matches no motion. -/
def sampleEventBad : JsEvent :=
  { motion_id := some ("ghost"), start_time := some 0, start := none, duration := some 1 }

/-- Witness for C8 at a concrete motion list and unmatched event. -/
theorem claim_C8_witness :
    mkTimelineEvent [sampleMotion] sampleEventBad = none
    ∧ loadMotions [sampleMotion] [{ events := some [sampleEventBad] }] = [] :=
  (claim_C8 [sampleMotion] []).2 sampleEventBad (by decide)

/-- C5: extractVector3 unwraps a Vector3-tagged value to the carried
vector itself, and the geometry primitive is read off the Identifier tag:
an Identifier-tagged name selects its geometry while the same name under a
String tag is not recognized and falls to the default unit box. -/
theorem claim_C5 (s : String) (hs : s ≠ "") :
    (∀ v, extractVector3 (some (JVal.tagVector3 v)) = some v)
    ∧ primitiveOf (some (JVal.tagIdentifier s)) = JVal.str s
    ∧ (∀ scale, geomOf (primitiveOf (some (JVal.tagIdentifier ("sphere")))) scale =
        Geom.sphere (scale.get? 0))
    ∧ (∀ scale, geomOf (primitiveOf (some (JVal.tagString ("sphere")))) scale =
        Geom.box (some 1) (some 1) (some 1)) := by
  refine ⟨?_, ?_, ?_, ?_⟩
  · intro v
    rfl
  · simp [primitiveOf, hs]
  · intro scale
    rfl
  · intro scale
    rfl

/-- Witness for C5 at a concrete nonempty identifier. -/
theorem claim_C5_witness :
    (∀ v, extractVector3 (some (JVal.tagVector3 v)) = some v)
    ∧ primitiveOf (some (JVal.tagIdentifier ("cube"))) = JVal.str ("cube")
    ∧ (∀ scale, geomOf (primitiveOf (some (JVal.tagIdentifier ("sphere")))) scale =
        Geom.sphere (scale.get? 0))
    ∧ (∀ scale, geomOf (primitiveOf (some (JVal.tagString ("sphere")))) scale =
        Geom.box (some 1) (some 1) (some 1)) :=
  claim_C5 ("cube") (by decide)

set_option maxRecDepth 200000 in
/-- C6: for an animated rotation motion the renderer takes the axis from
motion.parameters.axis and the speed from motion.parameters.speed, in both
the tagged and the bare form; yet the shipped scene.dsl writes axis and
speed as bare top-level fields of its motion block (its top-level field
names are target, type, axis, speed, with no parameters field). -/
theorem claim_C6 :
    (∀ (m : JMotion) ps v, m.parameters = some ps →
       propsGet ps ("axis") = some (JVal.tagVector3 v) → axisOf m = Sum.inl v)
    ∧ (∀ (m : JMotion) ps v, m.parameters = some ps →
       propsGet ps ("axis") = some (JVal.arrVal v) → axisOf m = Sum.inl v)
    ∧ (∀ (m : JMotion) ps q, m.parameters = some ps → q ≠ 0 →
       propsGet ps ("speed") = some (JVal.tagNumber q) → speedOf m = Sum.inl q)
    ∧ (∀ (m : JMotion) ps q, m.parameters = some ps → q ≠ 0 →
       propsGet ps ("speed") = some (JVal.num q) → speedOf m = Sum.inl q)
    ∧ motionFieldNames sceneDslText = some [("target"), ("type"), ("axis"), ("speed")] := by
  refine ⟨?_, ?_, ?_, ?_, by rfl⟩
  · intro m ps v hp ha
    unfold axisOf paramsGet
    rw [hp]
    dsimp only
    rw [ha]
  · intro m ps v hp ha
    unfold axisOf paramsGet
    rw [hp]
    dsimp only
    rw [ha]
    rfl
  · intro m ps q hp hq ha
    unfold speedOf paramsGet
    rw [hp]
    dsimp only
    rw [ha]
    simp [hq]
  · intro m ps q hp hq ha
    unfold speedOf paramsGet
    rw [hp]
    dsimp only
    rw [ha]
    simp [jsTruthy, hq]

/-- A concrete motion whose parameters carry a tagged axis and speed. -/
def paramMotion : JMotion :=
  { id := "m1", motion_type := "rotation", target_entity := "cube"
  , parameters := some [(("axis"), JVal.tagVector3 [0, 1, 0]), (("speed"), JVal.tagNumber 2)] }

/-- Witness for C6 at a concrete parameterized motion. -/
theorem claim_C6_witness :
    axisOf paramMotion = Sum.inl ([0, 1, 0] : List ℚ)
    ∧ speedOf paramMotion = Sum.inl 2 :=
  ⟨claim_C6.1 paramMotion _ [0, 1, 0] rfl (by decide),
   claim_C6.2.2.1 paramMotion _ 2 rfl (by decide) (by decide)⟩

/-- C9: the renderer treats a timeline event as active on the closed
interval from start to start plus duration: the activity gate holds
exactly there, so an event is still active at the very endpoint and two
back-to-back events share their boundary instant; and updateAnimations
applies a motion exactly when the gate holds, the motion is a rotation and
the target object is found. -/
theorem claim_C9 (t s d dd delta : ℚ) (objects : List MeshSpec) (evt : TimelineEvt) :
    (eventActive t s d = true ↔ (s ≤ t ∧ t ≤ s + d))
    ∧ (0 ≤ d → 0 ≤ dd → eventActive (s + d) s d = true ∧ eventActive (s + d) (s + d) dd = true)
    ∧ (processEvent t delta objects evt ≠ none ↔
        (eventActive t evt.start evt.duration = true ∧ evt.motion.motion_type = "rotation" ∧
         (objects.find? (fun o => o.name == evt.motion.target_entity)).isSome)) := by
  have hiff : ∀ u v w : ℚ, eventActive u v w = true ↔ (v ≤ u ∧ u ≤ v + w) := by
    intro u v w
    unfold eventActive
    simp [not_lt]
  refine ⟨hiff t s d, ?_, ?_⟩
  · intro hd hdd
    constructor
    · exact (hiff _ _ _).mpr ⟨by linarith, by linarith⟩
    · exact (hiff _ _ _).mpr ⟨le_refl _, by linarith⟩
  · unfold processEvent
    rcases hb : eventActive t evt.start evt.duration with _ | _
    · simp
    · simp only [Bool.true_eq_false, if_false]
      by_cases hr : evt.motion.motion_type = "rotation"
      · simp only [hr, if_true]
        rcases hf : objects.find? (fun o => o.name == evt.motion.target_entity) with _ | o <;>
          simp [hf]
      · simp [hr]

/-- Witness for C9 at concrete times: a five-second event is still active
at its end instant, and a back-to-back follow-up is active there too. -/
theorem claim_C9_witness :
    eventActive ((0 : ℚ) + 5) 0 5 = true ∧ eventActive ((0 : ℚ) + 5) (0 + 5) 3 = true :=
  (claim_C9 0 0 5 3 1 [] { start := 0, duration := 5, motion := sampleMotion }).2.1
    (by norm_num) (by norm_num)

/-- An entity with no transform component. -/
def entNoTransform (cg : Option JComponent) : JEntity :=
  { id := none, components := some { transform := none, geometry := cg } }

/-- An entity whose transform carries the given properties. -/
def entWithTransform (tprops : List (String × JVal)) (cg : Option JComponent) : JEntity :=
  { id := none, components := some { transform := some { properties := some tprops }, geometry := cg } }

/-- An entity with no geometry component. -/
def entNoGeometry (tr : Option JComponent) : JEntity :=
  { id := none, components := some { transform := tr, geometry := none } }

/-- An entity whose geometry carries the given properties. -/
def entWithGeometry (tr : Option JComponent) (gprops : List (String × JVal)) : JEntity :=
  { id := none, components := some { transform := tr, geometry := some { properties := some gprops } } }

/-- C10: createEntityMesh is total and defaults on missing or malformed
input: with no transform component the transform defaults are the zero
position and rotation and the unit scale; the same holds when the
transform properties are present but not extractable as vectors; with no
geometry component the selected geometry is a box; and an unrecognized
Identifier-tagged primitive name yields the default unit box. -/
theorem claim_C10 :
    (∀ name cg,
       (createEntityMesh name (entNoTransform cg)).position = ([0, 0, 0] : List ℚ)
       ∧ (createEntityMesh name (entNoTransform cg)).rotation = ([0, 0, 0] : List ℚ)
       ∧ (createEntityMesh name (entNoTransform cg)).scale = ([1, 1, 1] : List ℚ))
    ∧ (∀ name tprops cg,
        extractVector3 (propsGet tprops ("position")) = none →
        extractVector3 (propsGet tprops ("rotation")) = none →
        extractVector3 (propsGet tprops ("scale")) = none →
        (createEntityMesh name (entWithTransform tprops cg)).position = ([0, 0, 0] : List ℚ)
        ∧ (createEntityMesh name (entWithTransform tprops cg)).rotation = ([0, 0, 0] : List ℚ)
        ∧ (createEntityMesh name (entWithTransform tprops cg)).scale = ([1, 1, 1] : List ℚ))
    ∧ (∀ name tr, ∃ w h dp,
        (createEntityMesh name (entNoGeometry tr)).geom = Geom.box w h dp)
    ∧ (∀ name tr gprops s,
        propsGet gprops ("primitive") = some (JVal.tagIdentifier s) →
        s ∉ ([("cube"), ("sphere"), ("cylinder"), ("cone"), ("plane")] : List String) →
        (createEntityMesh name (entWithGeometry tr gprops)).geom =
          Geom.box (some 1) (some 1) (some 1)) := by
  refine ⟨?_, ?_, ?_, ?_⟩
  · intro name cg
    refine ⟨rfl, rfl, rfl⟩
  · intro name tprops cg hpos hrot hscl
    unfold createEntityMesh entWithTransform
    simp only [Option.getD_some]
    rw [hpos, hrot, hscl]
    exact ⟨rfl, rfl, rfl⟩
  · intro name tr
    exact ⟨_, _, _, rfl⟩
  · intro name tr gprops s hp hnot
    have h1 : s ≠ "cube" := fun h => hnot (by rw [h]; exact List.mem_cons_self _ _)
    have h2 : s ≠ "sphere" := fun h => hnot (by rw [h]; simp)
    have h3 : s ≠ "cylinder" := fun h => hnot (by rw [h]; simp)
    have h4 : s ≠ "cone" := fun h => hnot (by rw [h]; simp)
    have h5 : s ≠ "plane" := fun h => hnot (by rw [h]; simp)
    unfold createEntityMesh entWithGeometry
    simp only [Option.getD_some]
    rw [hp]
    by_cases hse : s = ""
    · subst hse
      rfl
    · simp [primitiveOf, geomOf, hse, h1, h2, h3, h4, h5]

/-- Witness for C10 at concrete malformed inputs: number-tagged transform
properties and an unknown torus primitive. -/
theorem claim_C10_witness :
    ((createEntityMesh ("e1")
        (entWithTransform [(("position"), JVal.tagNumber 5)] none)).position =
          ([0, 0, 0] : List ℚ)
     ∧ (createEntityMesh ("e1")
        (entWithTransform [(("position"), JVal.tagNumber 5)] none)).rotation =
          ([0, 0, 0] : List ℚ)
     ∧ (createEntityMesh ("e1")
        (entWithTransform [(("position"), JVal.tagNumber 5)] none)).scale =
          ([1, 1, 1] : List ℚ))
    ∧ (createEntityMesh ("e2")
        (entWithGeometry none [(("primitive"), JVal.tagIdentifier ("torus"))])).geom =
        Geom.box (some 1) (some 1) (some 1) :=
  ⟨claim_C10.2.1 ("e1") [(("position"), JVal.tagNumber 5)] none rfl rfl rfl,
   claim_C10.2.2.2 ("e2") none [(("primitive"), JVal.tagIdentifier ("torus"))] ("torus")
     rfl (by decide)⟩
